import Mathlib

/-!
Verification of the metadata client of the franchino repository
(`src/youtube_api_manager.py`) and transcript helper
(`src/test_yt_transcription.py`).

The remote YouTube Data API is modelled as a `Provider`: a bundle of stub
endpoint functions.  A call either yields a decoded response payload or an
`HttpError` whose structured body carries a message (`ApiResult.httpError`).
Python dictionaries returned to the caller are modelled as association lists
`List (String × Val)` built literally from the dict literals of the source, so
key-presence questions ("error" in d) are faithful.  Raised Python
exceptions are modelled with `Except.error`; network requests issued are
accumulated in a `List Request` trace.  The unbounded `while True`
pagination loop is modelled with explicit fuel: a `none` result means the
fuel ran out before the loop finished.
-/

namespace Franchino

/-- JSON-like values appearing in the dictionaries the client returns. -/
inductive Val where
  | str : String → Val
  | nat : Nat → Val
  | bool : Bool → Val
  | arr : List Val → Val
  | dict : List (String × Val) → Val

/-- A Python dictionary with string keys, as an association list. -/
abbrev Dict := List (String × Val)

/-- A naive `datetime.datetime` (no timezone), compared field by field. -/
structure PyDateTime where
  year : Nat
  month : Nat
  day : Nat
  hour : Nat
  minute : Nat
  second : Nat
deriving DecidableEq

/-- Python `datetime` ordering: lexicographic on the six fields. -/
def dtLt (a b : PyDateTime) : Bool :=
  if a.year ≠ b.year then decide (a.year < b.year)
  else if a.month ≠ b.month then decide (a.month < b.month)
  else if a.day ≠ b.day then decide (a.day < b.day)
  else if a.hour ≠ b.hour then decide (a.hour < b.hour)
  else if a.minute ≠ b.minute then decide (a.minute < b.minute)
  else decide (a.second < b.second)

/-- Numeric value of two decimal digit characters. -/
def twoDigits (a b : Char) : Nat := (a.toNat - 48) * 10 + (b.toNat - 48)

/-- Embedding of `datetime.strptime(s, "%Y-%m-%dT%H:%M:%SZ")` on its
canonical zero-padded inputs: `none` models the `ValueError` raised on a
string not of that shape.  (CPython additionally range-checks the day
against the month; the simpler bounds here differ only on inputs no claim
exercises.) -/
def parseTs (s : String) : Option PyDateTime :=
  match s.toList with
  | [y1, y2, y3, y4, c1, m1, m2, c2, d1, d2, c3, h1, h2, c4, n1, n2, c5, s1, s2, c6] =>
    if c1 = '-' ∧ c2 = '-' ∧ c3 = 'T' ∧ c4 = ':' ∧ c5 = ':' ∧ c6 = 'Z'
        ∧ y1.isDigit ∧ y2.isDigit ∧ y3.isDigit ∧ y4.isDigit
        ∧ m1.isDigit ∧ m2.isDigit ∧ d1.isDigit ∧ d2.isDigit
        ∧ h1.isDigit ∧ h2.isDigit ∧ n1.isDigit ∧ n2.isDigit
        ∧ s1.isDigit ∧ s2.isDigit then
      let mo := twoDigits m1 m2
      let da := twoDigits d1 d2
      let ho := twoDigits h1 h2
      let mi := twoDigits n1 n2
      let se := twoDigits s1 s2
      if 1 ≤ mo ∧ mo ≤ 12 ∧ 1 ≤ da ∧ da ≤ 31 ∧ ho ≤ 23 ∧ mi ≤ 59 ∧ se ≤ 61 then
        some (PyDateTime.mk (twoDigits y1 y2 * 100 + twoDigits y3 y4) mo da ho mi se)
      else none
    else none
  | _ => none

/-- One item of a `channels().list` response, holding exactly the fields the
source reads; `Option` fields are the ones the source accesses with
`.get(key, default)`. -/
structure ChannelData where
  id : String
  title : String
  description : String
  customUrl : Option String
  publishedAt : String
  thumbnails : Val
  country : Option String
  viewCount : Option Val
  subscriberCount : Option Val
  hiddenSubscriberCount : Option Val
  videoCount : Option Val
  uploads : String

/-- The dict literal `get_channel_info` builds from a channel resource. -/
def channelDict (c : ChannelData) : Dict :=
  [("id", Val.str c.id),
   ("title", Val.str c.title),
   ("description", Val.str c.description),
   ("customUrl", Val.str (c.customUrl.getD "")),
   ("publishedAt", Val.str c.publishedAt),
   ("thumbnails", c.thumbnails),
   ("country", Val.str (c.country.getD "")),
   ("viewCount", c.viewCount.getD (Val.nat 0)),
   ("subscriberCount", c.subscriberCount.getD (Val.nat 0)),
   ("hiddenSubscriberCount", c.hiddenSubscriberCount.getD (Val.bool false)),
   ("videoCount", c.videoCount.getD (Val.nat 0)),
   ("uploads_playlist", Val.str c.uploads)]

/-- One item of a `playlistItems().list` response (fields the source reads). -/
structure PlaylistItem where
  videoId : String
  title : String
  description : String
  publishedAt : String
  thumbnails : Val
  channelId : String
  channelTitle : String

/-- The `video_data` dict literal built per playlist item in `get_all_videos`. -/
def videoDict (item : PlaylistItem) : Dict :=
  [("id", Val.str item.videoId),
   ("title", Val.str item.title),
   ("description", Val.str item.description),
   ("publishedAt", Val.str item.publishedAt),
   ("thumbnails", item.thumbnails),
   ("channelId", Val.str item.channelId),
   ("channelTitle", Val.str item.channelTitle),
   ("url", Val.str ("https://www.youtube.com/watch?v=" ++ item.videoId))]

/-- One item of a `videos().list` response (fields the source reads). -/
structure VideoData where
  id : String
  title : String
  description : String
  publishedAt : String
  thumbnails : Val
  channelId : String
  channelTitle : String
  tags : Option Val
  categoryId : Option Val
  duration : String
  viewCount : Option Val
  likeCount : Option Val
  commentCount : Option Val

/-- The dict literal `get_video_details` builds from a video resource. -/
def videoDetailDict (v : VideoData) : Dict :=
  [("id", Val.str v.id),
   ("title", Val.str v.title),
   ("description", Val.str v.description),
   ("publishedAt", Val.str v.publishedAt),
   ("thumbnails", v.thumbnails),
   ("channelId", Val.str v.channelId),
   ("channelTitle", Val.str v.channelTitle),
   ("tags", v.tags.getD (Val.arr [])),
   ("categoryId", v.categoryId.getD (Val.str "")),
   ("duration", Val.str v.duration),
   ("viewCount", v.viewCount.getD (Val.nat 0)),
   ("likeCount", v.likeCount.getD (Val.nat 0)),
   ("commentCount", v.commentCount.getD (Val.nat 0)),
   ("url", Val.str ("https://www.youtube.com/watch?v=" ++ v.id))]

/-- A `playlistItems().list` response page: items plus the optional
`nextPageToken` continuation cursor. -/
structure PlaylistPage where
  items : List PlaylistItem
  nextPageToken : Option String

/-- Outcome of `request.execute()`: a decoded payload, or an `HttpError`
carrying the `error.message` of its structured body. -/
inductive ApiResult (α : Type) where
  | ok : α → ApiResult α
  | httpError : String → ApiResult α

/-- A stub of the remote API: the four endpoint shapes the source calls. -/
structure Provider where
  channelsById : String → ApiResult (List ChannelData)
  channelsByUsername : String → ApiResult (List ChannelData)
  playlistItems : String → Nat → Option String → ApiResult PlaylistPage
  videosById : String → ApiResult (List VideoData)

/-- A network request issued to the remote API (for call-counting). -/
inductive Request where
  | channelsById : String → Request
  | channelsByUsername : String → Request
  | playlistItems : String → Nat → Option String → Request
  | videos : String → Request
deriving DecidableEq

/-- Python truthiness of an optional string argument: `None` and `""` are
falsy. -/
def truthy : Option String → Bool
  | none => false
  | some s => !s.isEmpty

/-- Shared response handling of `get_channel_info`: empty `items` is the
"Channel not found" error dict, an `HttpError` becomes an "API Error" dict,
otherwise the first item is flattened. -/
def channelResponse : ApiResult (List ChannelData) → Dict
  | ApiResult.httpError msg => [("error", Val.str ("API Error: " ++ msg))]
  | ApiResult.ok [] => [("error", Val.str "Channel not found")]
  | ApiResult.ok (c :: _) => channelDict c

/-- Embedding of `YouTubeAPIManager.get_channel_info`.  `Except.error`
models the `ValueError` raised when both identifiers are falsy; the second
component is the trace of network requests issued. -/
def get_channel_info (p : Provider) (channel_id username : Option String) :
    Except String Dict × List Request :=
  if truthy channel_id = false ∧ truthy username = false then
    (Except.error "Either channel_id or username must be provided", [])
  else if truthy channel_id then
    (Except.ok (channelResponse (p.channelsById (channel_id.getD ""))),
     [Request.channelsById (channel_id.getD "")])
  else
    (Except.ok (channelResponse (p.channelsByUsername (username.getD ""))),
     [Request.channelsByUsername (username.getD "")])

/-- The per-item body of the page loop in `get_all_videos`: parse the
publish timestamp when a `published_after` filter is given (a parse failure
is the uncaught `ValueError` of `datetime.strptime`), skip items strictly
before the filter instant, and flatten the rest in order. -/
def processItems (pa : Option PyDateTime) : List PlaylistItem → Except String (List Dict)
  | [] => Except.ok []
  | item :: rest =>
    match pa with
    | none =>
      match processItems pa rest with
      | Except.error e => Except.error e
      | Except.ok tl => Except.ok (videoDict item :: tl)
    | some d =>
      match parseTs item.publishedAt with
      | none => Except.error "ValueError: time data does not match format"
      | some t =>
        if dtLt t d then processItems pa rest
        else
          match processItems pa rest with
          | Except.error e => Except.error e
          | Except.ok tl => Except.ok (videoDict item :: tl)

/-- The page size requested from `playlistItems().list`:
`min(50, max_results - len(videos) if max_results else 50)`. -/
def pageSize (mr len : Nat) : Nat := min 50 (if mr ≠ 0 then mr - len else 50)

/-- The `while True` pagination loop of `get_all_videos`, with fuel.
`videos` is the accumulator, `tok` the continuation cursor to send next.
A `none` first component means the fuel ran out; `some (Except.ok vids)`
is a normal `return videos` (or the error list built by the `HttpError` handler);
`some (Except.error e)` is an uncaught exception. -/
def fetchPages (p : Provider) (pid : String) (mr : Nat) (pa : Option PyDateTime) :
    Nat → List Dict → Option String → Option (Except String (List Dict)) × List Request
  | 0, _, _ => (none, [])
  | fuel + 1, videos, tok =>
    if mr ≠ 0 ∧ mr ≤ videos.length then
      (some (Except.ok videos), [])
    else
      let m := pageSize mr videos.length
      match p.playlistItems pid m tok with
      | ApiResult.httpError msg =>
        (some (Except.ok [[("error", Val.str ("API Error: " ++ msg))]]),
         [Request.playlistItems pid m tok])
      | ApiResult.ok page =>
        match processItems pa page.items with
        | Except.error e => (some (Except.error e), [Request.playlistItems pid m tok])
        | Except.ok newRecs =>
          if truthy page.nextPageToken then
            let rest := fetchPages p pid mr pa fuel (videos ++ newRecs) page.nextPageToken
            (rest.1, Request.playlistItems pid m tok :: rest.2)
          else
            (some (Except.ok (videos ++ newRecs)), [Request.playlistItems pid m tok])

/-- Embedding of `YouTubeAPIManager.get_all_videos`.  `mr = 0` models both
falsy Python values of `max_results` (`0` and `None`); `fuel` bounds the
`while True` loop (`none` = fuel exhausted).  The final `match` arm models
the `KeyError`/type confusion Python would raise on a channel dict without a
string `uploads_playlist` entry, which no dict built by `get_channel_info`
triggers. -/
def get_all_videos (p : Provider) (channel_id username : Option String)
    (mr : Nat) (pa : Option PyDateTime) (fuel : Nat) :
    Option (Except String (List Dict)) × List Request :=
  if truthy channel_id = false ∧ truthy username = false then
    (some (Except.error "Either channel_id or username must be provided"), [])
  else
    let ci :=
      if truthy username = true ∧ truthy channel_id = false then
        get_channel_info p none username
      else
        get_channel_info p channel_id none
    match ci.1 with
    | Except.error e => (some (Except.error e), ci.2)
    | Except.ok d =>
      match d.lookup "error" with
      | some v => (some (Except.ok [[("error", v)]]), ci.2)
      | none =>
        match d.lookup "uploads_playlist" with
        | some (Val.str pid) =>
          let rest := fetchPages p pid mr pa fuel [] none
          (rest.1, ci.2 ++ rest.2)
        | _ => (some (Except.error "KeyError: uploads_playlist"), ci.2)

/-- Embedding of `YouTubeAPIManager.get_video_details`: no argument
validation, one unconditional request, not-found and `HttpError` flattened
to the same tagged error dict shape. -/
def get_video_details (p : Provider) (video_id : String) : Dict × List Request :=
  match p.videosById video_id with
  | ApiResult.httpError msg =>
    ([("error", Val.str ("API Error: " ++ msg))], [Request.videos video_id])
  | ApiResult.ok [] =>
    ([("error", Val.str "Video not found")], [Request.videos video_id])
  | ApiResult.ok (v :: _) => (videoDetailDict v, [Request.videos video_id])

/-- The page-size discipline the remote API documents: a page never holds
more items than the `maxResults` of the request asked for. -/
def pageBound (p : Provider) : Prop :=
  ∀ pid m tok page, p.playlistItems pid m tok = ApiResult.ok page →
    page.items.length ≤ m

/-- A record satisfies the `published_after` filter: any `publishedAt`
string it carries parses, and not to an instant strictly before `d`. -/
def afterFilter (d : PyDateTime) (rec : Dict) : Prop :=
  ∀ s, rec.lookup "publishedAt" = some (Val.str s) →
    ∃ t, parseTs s = some t ∧ dtLt t d = false

/-- The `url` field of a record is the fixed watch prefix applied to its `id`
field (vacuous for tagged error records, which carry an `error` key). -/
def urlOfId (rec : Dict) : Prop :=
  rec.lookup "error" = none →
    ∃ i, rec.lookup "id" = some (Val.str i) ∧
      rec.lookup "url" = some (Val.str ("https://www.youtube.com/watch?v=" ++ i))

/-- Number of records the pagination loop settles on for a channel with `L`
uploads: all `L` when the cap is falsy, else `min` of cap and `L`. -/
def capN (mr L : Nat) : Nat := if mr = 0 then L else min mr L

/-- A stubbed channel: its resource data plus its uploads collection, in
upload order (`data.uploads` names the pseudo-playlist). -/
structure StubChannel where
  data : ChannelData
  uploads : List PlaylistItem

/-- Opaque continuation cursor of the honest stub provider: the cursor for
position `n` is `n` repetitions of a filler character. -/
def pageTok (n : Nat) : String := String.mk (List.replicate n 'x')

/-- The honest stub provider for one channel: `channels().list` finds it by
id, and `playlistItems().list` pages through its uploads collection
honestly, handing out a continuation cursor exactly while items remain. -/
def honest (c : StubChannel) : Provider :=
  Provider.mk
    (fun i => if i = c.data.id then ApiResult.ok [c.data] else ApiResult.ok [])
    (fun _ => ApiResult.ok [])
    (fun pid m tok =>
      if pid = c.data.uploads then
        let start := (tok.getD "").length
        let page := (c.uploads.drop start).take m
        let nxt := start + page.length
        ApiResult.ok (PlaylistPage.mk page
          (if nxt < c.uploads.length then some (pageTok nxt) else none))
      else ApiResult.ok (PlaylistPage.mk [] none))
    (fun _ => ApiResult.ok [])

/-- A provider whose every endpoint raises an `HttpError` with message `e`. -/
def failProvider (e : String) : Provider :=
  Provider.mk (fun _ => ApiResult.httpError e) (fun _ => ApiResult.httpError e)
    (fun _ _ _ => ApiResult.httpError e) (fun _ => ApiResult.httpError e)

/-- A provider whose every endpoint returns zero items (not found). -/
def emptyProvider : Provider :=
  Provider.mk (fun _ => ApiResult.ok []) (fun _ => ApiResult.ok [])
    (fun _ _ _ => ApiResult.ok (PlaylistPage.mk [] none)) (fun _ => ApiResult.ok [])

/-- A concrete thumbnail blob for demo data. -/
def thumb : Val := Val.dict [("default", Val.dict [("url", Val.str "t")])]

/-- A concrete playlist item with the given video id and publish string. -/
def mkItem (vid ts : String) : PlaylistItem :=
  PlaylistItem.mk vid ("title-" ++ vid) "" ts thumb "ch1" "Chan"

/-- Concrete channel resource data for witnesses. -/
def demoData : ChannelData :=
  ChannelData.mk "ch1" "Chan" "desc" none "2020-01-01T00:00:00Z" thumb none
    (some (Val.str "5")) none none (some (Val.str "3")) "UUpl"

/-- A concrete stubbed channel with three uploads, in upload order. -/
def demoChannel : StubChannel :=
  StubChannel.mk demoData
    [mkItem "v1" "2023-01-01T00:00:00Z",
     mkItem "v2" "2023-02-01T00:00:00Z",
     mkItem "v3" "2023-03-01T00:00:00Z"]

/-- A concrete video resource for `get_video_details` witnesses. -/
def demoVideo : VideoData :=
  VideoData.mk "v1" "title-v1" "" "2023-01-01T00:00:00Z" thumb "ch1" "Chan"
    none none "PT5M" (some (Val.str "9")) none none

/-- A provider that answers `videos().list` with `demoVideo`. -/
def demoVideoProvider : Provider :=
  Provider.mk (fun _ => ApiResult.ok []) (fun _ => ApiResult.ok [])
    (fun _ _ _ => ApiResult.ok (PlaylistPage.mk [] none))
    (fun _ => ApiResult.ok [demoVideo])

/-- A filesystem snapshot: existing directories and files (path to text
contents).  Text contents stand for the encoded bytes; the transcript
helper writes in text mode. -/
structure FS where
  dirs : List String
  files : List (String × String)

/-- Overwrite-or-create semantics of `open(path, "w")` followed by one
write: replace the contents at `path` if present, else append the entry. -/
def setFile : List (String × String) → String → String → List (String × String)
  | [], path, content => [(path, content)]
  | (q, c) :: rest, path, content =>
    if q = path then (q, content) :: rest
    else (q, c) :: setFile rest path content

/-- One snippet of a fetched transcript (the `text` field is all the
helper reads). -/
structure Snippet where
  text : String

/-- Embedding of `YoutubeTranscriptor.transcript`: `fetch` stands for the
external `YouTubeTranscriptApi().fetch(video_id, languages=...)` call; the
caption is the space-join of the snippet texts; the fixed relative
directory is created when absent and the target file written (silently
overwriting an existing one). -/
def transcript (fetch : String → List String → List Snippet) (fs : FS)
    (video_id : String) (languages : List String) : FS :=
  let caption := String.intercalate " " ((fetch video_id languages).map Snippet.text)
  let fs1 := if "./transcriptions" ∈ fs.dirs then fs
             else FS.mk ("./transcriptions" :: fs.dirs) fs.files
  FS.mk fs1.dirs (setFile fs1.files ("./transcriptions/" ++ video_id ++ ".txt") caption)

/-- A concrete transcript fetch stub for the witness. -/
def demoFetch : String → List String → List Snippet :=
  fun vid _ => [Snippet.mk ("hello " ++ vid), Snippet.mk "world"]

theorem truthy_none : truthy none = false := rfl

theorem truthy_some_of_ne (s : String) (h : s ≠ "") : truthy (some s) = true := by
  simp only [truthy, Bool.not_eq_true']
  rw [Bool.eq_false_iff]
  intro hT
  exact h ((String.isEmpty_iff s).mp hT)

theorem pageTok_length (n : Nat) : (pageTok n).length = n := by
  simp [pageTok, String.length]

theorem pageTok_ne (n : Nat) (h : 0 < n) : pageTok n ≠ "" := by
  intro he
  have h2 : (pageTok n).length = 0 := by rw [he]; rfl
  rw [pageTok_length] at h2
  omega

theorem string_append_ne_empty (a b : String) (h : a.length ≠ 0) : a ++ b ≠ "" := by
  intro he
  have h2 : (a ++ b).length = 0 := by rw [he]; rfl
  rw [String.length_append] at h2
  omega

theorem channelDict_error (c : ChannelData) :
    (channelDict c).lookup "error" = none := by
  simp [channelDict, List.lookup]

theorem channelDict_uploads (c : ChannelData) :
    (channelDict c).lookup "uploads_playlist" = some (Val.str c.uploads) := by
  simp [channelDict, List.lookup]

theorem videoDict_error (item : PlaylistItem) :
    (videoDict item).lookup "error" = none := by
  simp [videoDict, List.lookup]

theorem videoDict_publishedAt (item : PlaylistItem) :
    (videoDict item).lookup "publishedAt" = some (Val.str item.publishedAt) := by
  simp [videoDict, List.lookup]

theorem videoDict_id (item : PlaylistItem) :
    (videoDict item).lookup "id" = some (Val.str item.videoId) := by
  simp [videoDict, List.lookup]

theorem videoDict_url (item : PlaylistItem) :
    (videoDict item).lookup "url" =
      some (Val.str ("https://www.youtube.com/watch?v=" ++ item.videoId)) := by
  simp [videoDict, List.lookup]

theorem videoDetailDict_error (v : VideoData) :
    (videoDetailDict v).lookup "error" = none := by
  simp [videoDetailDict, List.lookup]

theorem videoDetailDict_id (v : VideoData) :
    (videoDetailDict v).lookup "id" = some (Val.str v.id) := by
  simp [videoDetailDict, List.lookup]

theorem videoDetailDict_url (v : VideoData) :
    (videoDetailDict v).lookup "url" =
      some (Val.str ("https://www.youtube.com/watch?v=" ++ v.id)) := by
  simp [videoDetailDict, List.lookup]

theorem errDict_lookup (v : Val) (k : String) (hk : k ≠ "error") :
    ([("error", v)] : Dict).lookup k = none := by
  have hb : (k == "error") = false := beq_eq_false_iff_ne.mpr hk
  simp [List.lookup, hb]

theorem processItems_none (items : List PlaylistItem) :
    processItems none items = Except.ok (items.map videoDict) := by
  induction items with
  | nil => rfl
  | cons item rest ih => rw [processItems, ih]; rfl

theorem processItems_length (pa : Option PyDateTime) :
    ∀ items vids, processItems pa items = Except.ok vids → vids.length ≤ items.length := by
  intro items
  induction items with
  | nil =>
    intro vids h
    have h2 : Except.ok ([] : List Dict) = Except.ok vids := h
    cases h2
    simp
  | cons item rest ih =>
    intro vids h
    cases pa with
    | none =>
      rw [processItems] at h
      cases hrec : processItems none rest with
      | error e => simp only [hrec] at h; cases h
      | ok tl =>
        simp only [hrec] at h
        cases h
        simpa using Nat.succ_le_succ (ih tl hrec)
    | some d =>
      rw [processItems] at h
      cases hp : parseTs item.publishedAt with
      | none => simp only [hp] at h; cases h
      | some t =>
        simp only [hp] at h
        by_cases hlt : dtLt t d = true
        · rw [if_pos hlt] at h
          have h2 := ih vids h
          simp only [List.length_cons]
          omega
        · rw [if_neg hlt] at h
          cases hrec : processItems (some d) rest with
          | error e => simp only [hrec] at h; cases h
          | ok tl =>
            simp only [hrec] at h
            cases h
            simpa using Nat.succ_le_succ (ih tl hrec)

theorem processItems_shape (pa : Option PyDateTime) :
    ∀ items vids, processItems pa items = Except.ok vids →
      ∀ rec ∈ vids, ∃ item, rec = videoDict item := by
  intro items
  induction items with
  | nil =>
    intro vids h
    have h2 : Except.ok ([] : List Dict) = Except.ok vids := h
    cases h2
    intro rec hrec
    simp at hrec
  | cons item rest ih =>
    intro vids h
    cases pa with
    | none =>
      rw [processItems] at h
      cases hrec : processItems none rest with
      | error e => simp only [hrec] at h; cases h
      | ok tl =>
        simp only [hrec] at h
        cases h
        intro rec hmem
        rcases List.mem_cons.mp hmem with hh | ht
        · exact ⟨item, hh⟩
        · exact ih tl hrec rec ht
    | some d =>
      rw [processItems] at h
      cases hp : parseTs item.publishedAt with
      | none => simp only [hp] at h; cases h
      | some t =>
        simp only [hp] at h
        by_cases hlt : dtLt t d = true
        · rw [if_pos hlt] at h
          exact ih vids h
        · rw [if_neg hlt] at h
          cases hrec : processItems (some d) rest with
          | error e => simp only [hrec] at h; cases h
          | ok tl =>
            simp only [hrec] at h
            cases h
            intro rec hmem
            rcases List.mem_cons.mp hmem with hh | ht
            · exact ⟨item, hh⟩
            · exact ih tl hrec rec ht

theorem processItems_filter (d : PyDateTime) :
    ∀ items vids, processItems (some d) items = Except.ok vids →
      ∀ rec ∈ vids, afterFilter d rec := by
  intro items
  induction items with
  | nil =>
    intro vids h
    have h2 : Except.ok ([] : List Dict) = Except.ok vids := h
    cases h2
    intro rec hrec
    simp at hrec
  | cons item rest ih =>
    intro vids h
    rw [processItems] at h
    cases hp : parseTs item.publishedAt with
    | none => simp only [hp] at h; cases h
    | some t =>
      simp only [hp] at h
      by_cases hlt : dtLt t d = true
      · rw [if_pos hlt] at h
        exact ih vids h
      · rw [if_neg hlt] at h
        cases hrec : processItems (some d) rest with
        | error e => simp only [hrec] at h; cases h
        | ok tl =>
          simp only [hrec] at h
          cases h
          intro rec hmem
          rcases List.mem_cons.mp hmem with hh | ht
          · subst hh
            intro s hs
            rw [videoDict_publishedAt] at hs
            cases hs
            exact ⟨t, hp, Bool.not_eq_true _ ▸ hlt⟩
          · exact ih tl hrec rec ht

theorem pageSize_pos (mr len : Nat) (h : ¬(mr ≠ 0 ∧ mr ≤ len)) : 1 ≤ pageSize mr len := by
  unfold pageSize
  by_cases hmr : mr = 0
  · rw [if_neg (by omega)]
    omega
  · rw [if_pos hmr]
    omega

theorem pageSize_le (mr len : Nat) (hmr : mr ≠ 0) : pageSize mr len ≤ mr - len := by
  unfold pageSize
  rw [if_pos hmr]
  omega

theorem fetchPages_le (p : Provider) (hp : pageBound p) (pid : String) (mr : Nat)
    (hmr : mr ≠ 0) (pa : Option PyDateTime) :
    ∀ fuel videos tok vids, videos.length ≤ mr →
      (fetchPages p pid mr pa fuel videos tok).1 = some (Except.ok vids) →
      vids.length ≤ mr := by
  intro fuel
  induction fuel with
  | zero =>
    intro videos tok vids hlen h
    have h2 : (none : Option (Except String (List Dict))) = some (Except.ok vids) := h
    cases h2
  | succ fuel ih =>
    intro videos tok vids hlen h
    rw [fetchPages] at h
    by_cases hcap : mr ≠ 0 ∧ mr ≤ videos.length
    · rw [if_pos hcap] at h
      have h2 : some (Except.ok videos) = some (Except.ok vids) := h
      cases h2
      exact hlen
    · rw [if_neg hcap] at h
      cases hpl : p.playlistItems pid (pageSize mr videos.length) tok with
      | httpError msg =>
        simp only [hpl] at h
        have h2 : some (Except.ok [[("error", Val.str ("API Error: " ++ msg))]]) =
            some (Except.ok vids) := h
        cases h2
        simpa using Nat.one_le_iff_ne_zero.mpr hmr
      | ok page =>
        simp only [hpl] at h
        cases hpi : processItems pa page.items with
        | error e => simp only [hpi] at h; cases h
        | ok newRecs =>
          simp only [hpi] at h
          have hnew : newRecs.length ≤ pageSize mr videos.length :=
            le_trans (processItems_length pa page.items newRecs hpi)
              (hp pid (pageSize mr videos.length) tok page hpl)
          have hlen2 : (videos ++ newRecs).length ≤ mr := by
            have h3 := pageSize_le mr videos.length hmr
            simp only [List.length_append]
            omega
          by_cases htk : truthy page.nextPageToken = true
          · rw [if_pos htk] at h
            exact ih (videos ++ newRecs) page.nextPageToken vids hlen2 h
          · rw [if_neg htk] at h
            have h2 : some (Except.ok (videos ++ newRecs)) = some (Except.ok vids) := h
            cases h2
            exact hlen2

theorem fetchPages_filter (p : Provider) (pid : String) (mr : Nat) (d : PyDateTime) :
    ∀ fuel videos tok vids, (∀ rec ∈ videos, afterFilter d rec) →
      (fetchPages p pid mr (some d) fuel videos tok).1 = some (Except.ok vids) →
      ∀ rec ∈ vids, afterFilter d rec := by
  intro fuel
  induction fuel with
  | zero =>
    intro videos tok vids hvid h
    have h2 : (none : Option (Except String (List Dict))) = some (Except.ok vids) := h
    cases h2
  | succ fuel ih =>
    intro videos tok vids hvid h
    rw [fetchPages] at h
    by_cases hcap : mr ≠ 0 ∧ mr ≤ videos.length
    · rw [if_pos hcap] at h
      have h2 : some (Except.ok videos) = some (Except.ok vids) := h
      cases h2
      exact hvid
    · rw [if_neg hcap] at h
      cases hpl : p.playlistItems pid (pageSize mr videos.length) tok with
      | httpError msg =>
        simp only [hpl] at h
        have h2 : some (Except.ok [[("error", Val.str ("API Error: " ++ msg))]]) =
            some (Except.ok vids) := h
        cases h2
        intro rec hmem
        rcases List.mem_singleton.mp hmem with rfl
        intro s hs
        rw [errDict_lookup _ _ (by decide)] at hs
        cases hs
      | ok page =>
        simp only [hpl] at h
        cases hpi : processItems (some d) page.items with
        | error e => simp only [hpi] at h; cases h
        | ok newRecs =>
          simp only [hpi] at h
          have hvid2 : ∀ rec ∈ videos ++ newRecs, afterFilter d rec := by
            intro rec hmem
            rcases List.mem_append.mp hmem with hm | hm
            · exact hvid rec hm
            · exact processItems_filter d page.items newRecs hpi rec hm
          by_cases htk : truthy page.nextPageToken = true
          · rw [if_pos htk] at h
            exact ih (videos ++ newRecs) page.nextPageToken vids hvid2 h
          · rw [if_neg htk] at h
            have h2 : some (Except.ok (videos ++ newRecs)) = some (Except.ok vids) := h
            cases h2
            exact hvid2

theorem fetchPages_url (p : Provider) (pid : String) (mr : Nat) (pa : Option PyDateTime) :
    ∀ fuel videos tok vids, (∀ rec ∈ videos, urlOfId rec) →
      (fetchPages p pid mr pa fuel videos tok).1 = some (Except.ok vids) →
      ∀ rec ∈ vids, urlOfId rec := by
  intro fuel
  induction fuel with
  | zero =>
    intro videos tok vids hvid h
    have h2 : (none : Option (Except String (List Dict))) = some (Except.ok vids) := h
    cases h2
  | succ fuel ih =>
    intro videos tok vids hvid h
    rw [fetchPages] at h
    by_cases hcap : mr ≠ 0 ∧ mr ≤ videos.length
    · rw [if_pos hcap] at h
      have h2 : some (Except.ok videos) = some (Except.ok vids) := h
      cases h2
      exact hvid
    · rw [if_neg hcap] at h
      cases hpl : p.playlistItems pid (pageSize mr videos.length) tok with
      | httpError msg =>
        simp only [hpl] at h
        have h2 : some (Except.ok [[("error", Val.str ("API Error: " ++ msg))]]) =
            some (Except.ok vids) := h
        cases h2
        intro rec hmem
        rcases List.mem_singleton.mp hmem with rfl
        intro hs
        rw [List.lookup] at hs
        simp at hs
      | ok page =>
        simp only [hpl] at h
        cases hpi : processItems pa page.items with
        | error e => simp only [hpi] at h; cases h
        | ok newRecs =>
          simp only [hpi] at h
          have hvid2 : ∀ rec ∈ videos ++ newRecs, urlOfId rec := by
            intro rec hmem
            rcases List.mem_append.mp hmem with hm | hm
            · exact hvid rec hm
            · obtain ⟨item, rfl⟩ := processItems_shape pa page.items newRecs hpi rec hm
              intro hok
              exact ⟨item.videoId, videoDict_id item, videoDict_url item⟩
          by_cases htk : truthy page.nextPageToken = true
          · rw [if_pos htk] at h
            exact ih (videos ++ newRecs) page.nextPageToken vids hvid2 h
          · rw [if_neg htk] at h
            have h2 : some (Except.ok (videos ++ newRecs)) = some (Except.ok vids) := h
            cases h2
            exact hvid2

theorem honest_playlistItems (c : StubChannel) (m : Nat) (tok : Option String) :
    (honest c).playlistItems c.data.uploads m tok =
      ApiResult.ok (PlaylistPage.mk ((c.uploads.drop (tok.getD "").length).take m)
        (if (tok.getD "").length + ((c.uploads.drop (tok.getD "").length).take m).length
              < c.uploads.length
          then some (pageTok ((tok.getD "").length
              + ((c.uploads.drop (tok.getD "").length).take m).length))
          else none)) := by
  simp [honest]

theorem capN_le_L (mr L : Nat) : capN mr L ≤ L := by
  unfold capN
  split
  · exact Nat.le_refl _
  · exact Nat.min_le_right _ _

theorem capN_le_mr (mr L : Nat) (h : mr ≠ 0) : capN mr L ≤ mr := by
  unfold capN
  rw [if_neg h]
  exact Nat.min_le_left _ _

theorem le_capN (mr L n : Nat) (h1 : n ≤ L) (h2 : mr ≠ 0 → n ≤ mr) : n ≤ capN mr L := by
  unfold capN
  split
  · exact h1
  · next h => exact Nat.le_min.mpr ⟨h2 h, h1⟩

theorem capN_eq_L (mr L : Nat) (h : mr ≠ 0 → L ≤ mr) : capN mr L = L := by
  unfold capN
  split
  · rfl
  · next hm => exact Nat.min_eq_right (h hm)

theorem fetchPages_honest_exact (c : StubChannel) (mr : Nat) :
    ∀ fuel start videos tok,
      (tok.getD "").length = start →
      videos.length = start →
      start ≤ capN mr c.uploads.length →
      capN mr c.uploads.length - start + 1 ≤ fuel →
      (fetchPages (honest c) c.data.uploads mr none fuel videos tok).1 =
        some (Except.ok (videos ++
          ((c.uploads.drop start).take (capN mr c.uploads.length - start)).map videoDict)) := by
  intro fuel
  induction fuel with
  | zero =>
    intro start videos tok htok hlen hstart hfuel
    exact absurd hfuel (by omega)
  | succ fuel ih =>
    intro start videos tok htok hlen hstart hfuel
    have hKL : capN mr c.uploads.length ≤ c.uploads.length := capN_le_L mr _
    rw [fetchPages]
    by_cases hcap : mr ≠ 0 ∧ mr ≤ videos.length
    · rw [if_pos hcap]
      have hKmr : capN mr c.uploads.length ≤ mr := capN_le_mr mr _ hcap.1
      have h0 : capN mr c.uploads.length - start = 0 := by omega
      rw [h0]
      simp
    · rw [if_neg hcap]
      rw [hlen] at hcap
      have hm1 : 1 ≤ pageSize mr start := pageSize_pos mr start hcap
      simp only [honest_playlistItems, htok, hlen, processItems_none]
      have hplen : (List.take (pageSize mr start) (List.drop start c.uploads)).length
          = min (pageSize mr start) (c.uploads.length - start) := by
        simp [List.length_take, List.length_drop]
      by_cases hnl : start + (List.take (pageSize mr start) (List.drop start c.uploads)).length
          < c.uploads.length
      · rw [if_pos hnl]
        have hplm : (List.take (pageSize mr start) (List.drop start c.uploads)).length
            = pageSize mr start := by omega
        rw [hplm]
        have hpos : 0 < start + pageSize mr start := by omega
        rw [truthy_some_of_ne _ (pageTok_ne _ hpos), if_pos (rfl : (true : Bool) = true)]
        have hnxt : start + pageSize mr start ≤ capN mr c.uploads.length := by
          apply le_capN
          · omega
          · intro hmr
            have h3 := pageSize_le mr start hmr
            omega
        refine Eq.trans (ih (start + pageSize mr start)
            (videos ++ List.map videoDict (List.take (pageSize mr start) (List.drop start c.uploads)))
            (some (pageTok (start + pageSize mr start)))
            (by simp [pageTok_length])
            (by simp [List.length_append, List.length_map, List.length_take, List.length_drop, hlen]; omega)
            hnxt
            (by omega)) ?_
        have hKs : capN mr c.uploads.length - start
            = pageSize mr start + (capN mr c.uploads.length - (start + pageSize mr start)) := by
          omega
        rw [hKs, List.take_add, List.append_assoc, ← List.map_append, ← List.drop_drop]
      · rw [if_neg hnl]
        rw [if_neg (by decide : ¬(truthy none = true))]
        have hKeqL : capN mr c.uploads.length = c.uploads.length := by
          apply capN_eq_L
          intro hmr
          have h3 := pageSize_le mr start hmr
          omega
        have hlen2 : (List.drop start c.uploads).length ≤ pageSize mr start := by
          rw [List.length_drop]
          omega
        have ht1 : List.take (pageSize mr start) (List.drop start c.uploads)
            = List.drop start c.uploads := List.take_of_length_le hlen2
        have ht2 : List.take (capN mr c.uploads.length - start) (List.drop start c.uploads)
            = List.drop start c.uploads := by
          apply List.take_of_length_le
          rw [List.length_drop]
          omega
        rw [ht1, ht2]

theorem pageSize_zero (len : Nat) : pageSize 0 len = 50 := by
  unfold pageSize
  simp

theorem get_channel_info_honest (c : StubChannel) (h : c.data.id ≠ "") :
    get_channel_info (honest c) (some c.data.id) none =
      (Except.ok (channelDict c.data), [Request.channelsById c.data.id]) := by
  simp [get_channel_info, truthy_some_of_ne _ h, honest, channelResponse]

theorem get_all_videos_honest (c : StubChannel) (h : c.data.id ≠ "") (mr : Nat)
    (pa : Option PyDateTime) (fuel : Nat) :
    get_all_videos (honest c) (some c.data.id) none mr pa fuel =
      ((fetchPages (honest c) c.data.uploads mr pa fuel [] none).1,
        Request.channelsById c.data.id ::
          (fetchPages (honest c) c.data.uploads mr pa fuel [] none).2) := by
  simp [get_all_videos, truthy_some_of_ne _ h, get_channel_info_honest c h,
    channelDict_error, channelDict_uploads]

theorem fetchPages_mr0_reqs (p : Provider) (pid : String) (pa : Option PyDateTime) :
    ∀ fuel videos tok q, q ∈ (fetchPages p pid 0 pa fuel videos tok).2 →
      ∃ t, q = Request.playlistItems pid 50 t := by
  intro fuel
  induction fuel with
  | zero =>
    intro videos tok q hq
    have h2 : (fetchPages p pid 0 pa 0 videos tok).2 = [] := rfl
    rw [h2] at hq
    simp at hq
  | succ fuel ih =>
    intro videos tok q hq
    simp only [fetchPages, pageSize_zero] at hq
    rw [if_neg (by simp)] at hq
    cases hpl : p.playlistItems pid 50 tok with
    | httpError msg =>
      simp only [hpl] at hq
      rcases List.mem_singleton.mp hq with rfl
      exact ⟨tok, rfl⟩
    | ok page =>
      simp only [hpl] at hq
      cases hpi : processItems pa page.items with
      | error e =>
        simp only [hpi] at hq
        rcases List.mem_singleton.mp hq with rfl
        exact ⟨tok, rfl⟩
      | ok newRecs =>
        simp only [hpi] at hq
        by_cases htk : truthy page.nextPageToken = true
        · rw [if_pos htk] at hq
          rcases List.mem_cons.mp hq with rfl | hq2
          · exact ⟨tok, rfl⟩
          · exact ih _ _ q hq2
        · rw [if_neg htk] at hq
          rcases List.mem_singleton.mp hq with rfl
          exact ⟨tok, rfl⟩

theorem get_channel_info_reqs (p : Provider) (cid u : Option String) :
    ∀ q ∈ (get_channel_info p cid u).2,
      (∃ i, q = Request.channelsById i) ∨ ∃ i, q = Request.channelsByUsername i := by
  intro q hq
  rw [get_channel_info] at hq
  by_cases h1 : truthy cid = false ∧ truthy u = false
  · rw [if_pos h1] at hq
    simp at hq
  · rw [if_neg h1] at hq
    by_cases h2 : truthy cid = true
    · rw [if_pos h2] at hq
      rcases List.mem_singleton.mp hq with rfl
      exact Or.inl ⟨_, rfl⟩
    · rw [if_neg h2] at hq
      rcases List.mem_singleton.mp hq with rfl
      exact Or.inr ⟨_, rfl⟩

theorem get_all_videos_cases (p : Provider) (cid u : Option String) (mr : Nat)
    (pa : Option PyDateTime) (fuel : Nat) (vids : List Dict)
    (h : (get_all_videos p cid u mr pa fuel).1 = some (Except.ok vids)) :
    (∃ v, vids = [[("error", v)]]) ∨
    (∃ pid, (fetchPages p pid mr pa fuel [] none).1 = some (Except.ok vids)) := by
  simp only [get_all_videos] at h
  by_cases hnv : truthy cid = false ∧ truthy u = false
  · rw [if_pos hnv] at h
    exact absurd h (by simp)
  · rw [if_neg hnv] at h
    cases hc1 : (if truthy u = true ∧ truthy cid = false then get_channel_info p none u
        else get_channel_info p cid none).1 with
    | error e =>
      simp only [hc1] at h
      exact absurd h (by simp)
    | ok d =>
      simp only [hc1] at h
      cases hle : d.lookup "error" with
      | some v =>
        simp only [hle] at h
        have h2 : some (Except.ok [[("error", v)]]) = some (Except.ok vids) := h
        cases h2
        exact Or.inl ⟨v, rfl⟩
      | none =>
        simp only [hle] at h
        cases hup : d.lookup "uploads_playlist" with
        | none =>
          simp only [hup] at h
          exact absurd h (by simp)
        | some val =>
          cases val with
          | str pid =>
            simp only [hup] at h
            exact Or.inr ⟨pid, h⟩
          | nat n => simp only [hup] at h; exact absurd h (by simp)
          | bool b => simp only [hup] at h; exact absurd h (by simp)
          | arr l => simp only [hup] at h; exact absurd h (by simp)
          | dict l => simp only [hup] at h; exact absurd h (by simp)

theorem channelResponse_cases (r : ApiResult (List ChannelData)) :
    (∃ m, (channelResponse r).lookup "error" = some (Val.str m) ∧ m ≠ "") ∨
    (∃ c, channelResponse r = channelDict c ∧ (channelResponse r).lookup "error" = none) := by
  cases r with
  | httpError e =>
    left
    exact ⟨"API Error: " ++ e, by simp [channelResponse, List.lookup],
      string_append_ne_empty _ _ (by decide)⟩
  | ok l =>
    cases l with
    | nil =>
      left
      exact ⟨"Channel not found", by simp [channelResponse, List.lookup], by decide⟩
    | cons c rest =>
      right
      exact ⟨c, rfl, channelDict_error c⟩

theorem get_video_details_cases (p : Provider) (vid : String) :
    (∃ m, (get_video_details p vid).1.lookup "error" = some (Val.str m) ∧ m ≠ "") ∨
    (∃ v, (get_video_details p vid).1 = videoDetailDict v ∧
      (get_video_details p vid).1.lookup "error" = none) := by
  rw [get_video_details]
  cases hv : p.videosById vid with
  | httpError e =>
    left
    exact ⟨"API Error: " ++ e, by simp [List.lookup],
      string_append_ne_empty _ _ (by decide)⟩
  | ok l =>
    cases l with
    | nil =>
      left
      exact ⟨"Video not found", by simp [List.lookup], by decide⟩
    | cons v rest =>
      right
      exact ⟨v, rfl, videoDetailDict_error v⟩

/-- C5: with a valid identifier, a zero-items (not-found) remote response
and a structured remote API error both make `get_channel_info` and
`get_video_details` return a tagged error dict whose message is non-empty,
never an uncaught exception; a success result never carries the `error`
key, so presence of that key exactly discriminates failure from success. -/
theorem claim_C5 :
    (∀ p cid u, (truthy cid = true ∨ truthy u = true) →
      ∃ d reqs, get_channel_info p cid u = (Except.ok d, reqs) ∧
        ((∃ m, d.lookup "error" = some (Val.str m) ∧ m ≠ "") ∨
          (∃ c, d = channelDict c ∧ d.lookup "error" = none))) ∧
    (∀ p vid,
      (∃ m, (get_video_details p vid).1.lookup "error" = some (Val.str m) ∧ m ≠ "") ∨
      (∃ v, (get_video_details p vid).1 = videoDetailDict v ∧
        (get_video_details p vid).1.lookup "error" = none)) ∧
    (∀ p cid, truthy cid = true → p.channelsById (cid.getD "") = ApiResult.ok [] →
      (get_channel_info p cid none).1 =
        Except.ok [("error", Val.str "Channel not found")]) ∧
    (∀ p cid e, truthy cid = true → p.channelsById (cid.getD "") = ApiResult.httpError e →
      (get_channel_info p cid none).1 =
        Except.ok [("error", Val.str ("API Error: " ++ e))]) ∧
    (∀ p vid, p.videosById vid = ApiResult.ok [] →
      (get_video_details p vid).1 = [("error", Val.str "Video not found")]) ∧
    (∀ p vid e, p.videosById vid = ApiResult.httpError e →
      (get_video_details p vid).1 = [("error", Val.str ("API Error: " ++ e))]) := by
  refine ⟨?_, ?_, ?_, ?_, ?_, ?_⟩
  · intro p cid u hval
    have hnv : ¬(truthy cid = false ∧ truthy u = false) := by
      rcases hval with h | h <;> simp [h]
    rw [get_channel_info, if_neg hnv]
    by_cases hc : truthy cid = true
    · rw [if_pos hc]
      exact ⟨_, _, rfl, channelResponse_cases _⟩
    · rw [if_neg hc]
      exact ⟨_, _, rfl, channelResponse_cases _⟩
  · intro p vid
    exact get_video_details_cases p vid
  · intro p cid h1 h2
    rw [get_channel_info, if_neg (by simp [h1]), if_pos h1, h2]
    rfl
  · intro p cid e h1 h2
    rw [get_channel_info, if_neg (by simp [h1]), if_pos h1, h2]
    rfl
  · intro p vid h2
    rw [get_video_details, h2]
  · intro p vid e h2
    rw [get_video_details, h2]

theorem claim_C5_witness :
    (get_channel_info emptyProvider (some "ch1") none).1 =
      Except.ok [("error", Val.str "Channel not found")] ∧
    (get_video_details (failProvider "quota exceeded") "v1").1 =
      [("error", Val.str ("API Error: " ++ "quota exceeded"))] :=
  ⟨claim_C5.2.2.1 emptyProvider (some "ch1")
      (truthy_some_of_ne _ (by decide)) rfl,
    claim_C5.2.2.2.2.2 (failProvider "quota exceeded") "v1" "quota exceeded" rfl⟩

/-- C6: when both the channel id and the username arguments are absent
(falsy), `get_channel_info` and `get_all_videos` raise the validation
`ValueError` before any network request is issued: the request trace is
empty. -/
theorem claim_C6 (p : Provider) (cid u : Option String) (mr : Nat)
    (pa : Option PyDateTime) (fuel : Nat)
    (hc : truthy cid = false) (hu : truthy u = false) :
    get_channel_info p cid u =
      (Except.error "Either channel_id or username must be provided", []) ∧
    get_all_videos p cid u mr pa fuel =
      (some (Except.error "Either channel_id or username must be provided"), []) := by
  constructor
  · rw [get_channel_info, if_pos ⟨hc, hu⟩]
  · rw [get_all_videos, if_pos ⟨hc, hu⟩]

theorem claim_C6_witness :
    get_channel_info emptyProvider none none =
      (Except.error "Either channel_id or username must be provided", []) ∧
    get_all_videos emptyProvider none none 50 none 100 =
      (some (Except.error "Either channel_id or username must be provided"), []) :=
  claim_C6 emptyProvider none none 50 none 100 rfl rfl

/-- C7: after identifier validation, `get_all_videos` returns failures
in-band, never raised: a resolution error from the `get_channel_info`
sub-call becomes the whole result as a single-element list wrapping the
error record, and a remote `HttpError` on any page yields the
single-element API-error list, discarding the records already collected. -/
theorem claim_C7 :
    (∀ p cid u mr pa fuel d reqs v,
      (truthy cid = true ∨ truthy u = true) →
      (if truthy u = true ∧ truthy cid = false then get_channel_info p none u
        else get_channel_info p cid none) = (Except.ok d, reqs) →
      d.lookup "error" = some v →
      get_all_videos p cid u mr pa fuel = (some (Except.ok [[("error", v)]]), reqs)) ∧
    (∀ p pid mr pa fuel videos tok e,
      ¬(mr ≠ 0 ∧ mr ≤ videos.length) →
      p.playlistItems pid (pageSize mr videos.length) tok = ApiResult.httpError e →
      fetchPages p pid mr pa (fuel + 1) videos tok =
        (some (Except.ok [[("error", Val.str ("API Error: " ++ e))]]),
          [Request.playlistItems pid (pageSize mr videos.length) tok])) := by
  constructor
  · intro p cid u mr pa fuel d reqs v hval hci herr
    have hnv : ¬(truthy cid = false ∧ truthy u = false) := by
      rcases hval with h | h <;> simp [h]
    rw [get_all_videos, if_neg hnv]
    simp only [hci, herr]
  · intro p pid mr pa fuel videos tok e hcap hpl
    rw [fetchPages, if_neg hcap]
    simp only [hpl]

/-- Concrete collected record used by the C7 witness: one video already
fetched from an earlier page. -/
def demoCollected : List Dict := [videoDict (mkItem "v0" "2022-01-01T00:00:00Z")]

theorem claim_C7_witness :
    get_all_videos (failProvider "boom") (some "ch1") none 5 none 3 =
      (some (Except.ok [[("error", Val.str "API Error: boom")]]),
        [Request.channelsById "ch1"]) ∧
    fetchPages (failProvider "boom") "UUpl" 5 none (2 + 1) demoCollected none =
      (some (Except.ok [[("error", Val.str ("API Error: " ++ "boom"))]]),
        [Request.playlistItems "UUpl" (pageSize 5 demoCollected.length) none]) :=
  ⟨claim_C7.1 (failProvider "boom") (some "ch1") none 5 none 3
      [("error", Val.str "API Error: boom")] [Request.channelsById "ch1"]
      (Val.str "API Error: boom")
      (Or.inl (truthy_some_of_ne _ (by decide))) rfl rfl,
    claim_C7.2 (failProvider "boom") "UUpl" 5 none 2 demoCollected none "boom"
      (by simp [demoCollected]) rfl⟩

/-- C10: `get_video_details` performs no argument validation: for every
`video_id`, including the empty string, it never raises and issues exactly
the one `videos().list` request, so an empty or nonsense id surfaces only
as the remote-driven not-found or API-error tagged value. -/
theorem claim_C10 (p : Provider) (video_id : String) :
    (get_video_details p video_id).2 = [Request.videos video_id] ∧
    (p.videosById video_id = ApiResult.ok [] →
      (get_video_details p video_id).1 = [("error", Val.str "Video not found")]) ∧
    (∀ e, p.videosById video_id = ApiResult.httpError e →
      (get_video_details p video_id).1 = [("error", Val.str ("API Error: " ++ e))]) := by
  refine ⟨?_, ?_, ?_⟩
  · rw [get_video_details]
    cases hv : p.videosById video_id with
    | httpError e => rfl
    | ok l =>
      cases l with
      | nil => rfl
      | cons v rest => rfl
  · intro hv
    rw [get_video_details, hv]
  · intro e hv
    rw [get_video_details, hv]

theorem claim_C10_witness :
    (get_video_details emptyProvider "").2 = [Request.videos ""] ∧
    (get_video_details emptyProvider "").1 = [("error", Val.str "Video not found")] :=
  ⟨(claim_C10 emptyProvider "").1, (claim_C10 emptyProvider "").2.1 rfl⟩

theorem honest_pageBound (c : StubChannel) : pageBound (honest c) := by
  intro pid m tok page h
  simp only [honest] at h
  by_cases hpid : pid = c.data.uploads
  · rw [if_pos hpid] at h
    cases h
    simp only [List.length_take]
    omega
  · rw [if_neg hpid] at h
    cases h
    simp

theorem capN_zero (L : Nat) : capN 0 L = L := by
  unfold capN
  simp

/-- C4: every video record returned by `get_all_videos` and by
`get_video_details` has its `url` field equal to the fixed string
`https://www.youtube.com/watch?v=` concatenated with its own `id` field:
the URL is a pure function of the id. -/
theorem claim_C4 :
    (∀ p cid u mr pa fuel vids,
      (get_all_videos p cid u mr pa fuel).1 = some (Except.ok vids) →
      ∀ rec ∈ vids, urlOfId rec) ∧
    (∀ p vid, urlOfId (get_video_details p vid).1) := by
  constructor
  · intro p cid u mr pa fuel vids h rec hmem
    rcases get_all_videos_cases p cid u mr pa fuel vids h with ⟨v, rfl⟩ | ⟨pid, hf⟩
    · rcases List.mem_singleton.mp hmem with rfl
      intro hok
      simp [List.lookup] at hok
    · exact fetchPages_url p pid mr pa fuel [] none vids (by simp) hf rec hmem
  · intro p vid
    rcases get_video_details_cases p vid with ⟨m, hm, _⟩ | ⟨v, hv, _⟩
    · intro hok
      rw [hm] at hok
      cases hok
    · rw [hv]
      intro hok
      exact ⟨v.id, videoDetailDict_id v, videoDetailDict_url v⟩

theorem claim_C4_witness :
    (∃ i, (videoDict (mkItem "v1" "2023-01-01T00:00:00Z")).lookup "id" =
        some (Val.str i) ∧
      (videoDict (mkItem "v1" "2023-01-01T00:00:00Z")).lookup "url" =
        some (Val.str ("https://www.youtube.com/watch?v=" ++ i))) ∧
    (∃ i, (get_video_details demoVideoProvider "v1").1.lookup "id" =
        some (Val.str i) ∧
      (get_video_details demoVideoProvider "v1").1.lookup "url" =
        some (Val.str ("https://www.youtube.com/watch?v=" ++ i))) :=
  ⟨claim_C4.1 (honest demoChannel) (some "ch1") none 2 none 5
      [videoDict (mkItem "v1" "2023-01-01T00:00:00Z"),
        videoDict (mkItem "v2" "2023-02-01T00:00:00Z")] rfl
      (videoDict (mkItem "v1" "2023-01-01T00:00:00Z")) (List.Mem.head _) rfl,
    claim_C4.2 demoVideoProvider "v1" rfl⟩

/-- C2: when a `published_after` instant is supplied, every record in an
ok result has a publish timestamp (parsed from its Z-suffixed UTC string)
not strictly before it; and filtering happens after the page is fetched, so
page-size accounting counts raw fetched items: on the three-video stub with
cap 1 and a filter skipping the oldest video, the first one-item raw page
is consumed by the skipped item and a second raw page must be fetched
before the cap is reached. -/
theorem claim_C2 :
    (∀ p cid u mr d fuel vids,
      (get_all_videos p cid u mr (some d) fuel).1 = some (Except.ok vids) →
      ∀ rec ∈ vids, afterFilter d rec) ∧
    get_all_videos (honest demoChannel) (some "ch1") none 1
        (some (PyDateTime.mk 2023 1 15 0 0 0)) 9 =
      (some (Except.ok [videoDict (mkItem "v2" "2023-02-01T00:00:00Z")]),
        [Request.channelsById "ch1",
          Request.playlistItems "UUpl" 1 none,
          Request.playlistItems "UUpl" 1 (some (pageTok 1))]) := by
  constructor
  · intro p cid u mr d fuel vids h rec hmem
    rcases get_all_videos_cases p cid u mr (some d) fuel vids h with ⟨v, rfl⟩ | ⟨pid, hf⟩
    · rcases List.mem_singleton.mp hmem with rfl
      intro s hs
      rw [errDict_lookup _ _ (by decide)] at hs
      cases hs
    · exact fetchPages_filter p pid mr d fuel [] none vids (by simp) hf rec hmem
  · rfl

theorem claim_C2_witness :
    ∃ t, parseTs "2023-02-01T00:00:00Z" = some t ∧
      dtLt t (PyDateTime.mk 2023 1 15 0 0 0) = false :=
  claim_C2.1 (honest demoChannel) (some "ch1") none 1 (PyDateTime.mk 2023 1 15 0 0 0) 9
    [videoDict (mkItem "v2" "2023-02-01T00:00:00Z")] rfl
    (videoDict (mkItem "v2" "2023-02-01T00:00:00Z")) (List.Mem.head _)
    "2023-02-01T00:00:00Z" rfl

/-- C1: with a positive cap `N` and a provider whose pages never exceed the
requested size, `get_all_videos` returns at most `N` records; and on a
channel whose uploads collection holds at least `N` videos, with no
`published_after` filter, it returns exactly `N` video records (the first
`N` uploads, flattened). -/
theorem claim_C1 :
    (∀ p cid u N pa fuel vids, pageBound p → N ≠ 0 →
      (get_all_videos p cid u N pa fuel).1 = some (Except.ok vids) →
      vids.length ≤ N) ∧
    (∀ c N fuel, c.data.id ≠ "" → N ≠ 0 → N ≤ c.uploads.length → N + 1 ≤ fuel →
      (get_all_videos (honest c) (some c.data.id) none N none fuel).1 =
          some (Except.ok ((c.uploads.take N).map videoDict)) ∧
        ((c.uploads.take N).map videoDict).length = N) := by
  constructor
  · intro p cid u N pa fuel vids hp hN h
    rcases get_all_videos_cases p cid u N pa fuel vids h with ⟨v, rfl⟩ | ⟨pid, hf⟩
    · simpa using Nat.one_le_iff_ne_zero.mpr hN
    · exact fetchPages_le p hp pid N hN pa fuel [] none vids (by simp) hf
  · intro c N fuel hid hN hNle hfuel
    have hK : capN N c.uploads.length = N := by
      unfold capN
      rw [if_neg hN]
      exact Nat.min_eq_left hNle
    constructor
    · rw [get_all_videos_honest c hid]
      have h2 := fetchPages_honest_exact c N fuel 0 [] none rfl rfl (by omega) (by omega)
      rw [hK] at h2
      simpa using h2
    · rw [List.length_map, List.length_take]
      omega

theorem claim_C1_witness :
    ((demoChannel.uploads.take 2).map videoDict).length ≤ 2 ∧
    (get_all_videos (honest demoChannel) (some "ch1") none 2 none 5).1 =
      some (Except.ok ((demoChannel.uploads.take 2).map videoDict)) :=
  ⟨claim_C1.1 (honest demoChannel) (some "ch1") none 2 none 5
      ((demoChannel.uploads.take 2).map videoDict) (honest_pageBound demoChannel)
      (by decide) rfl,
    (claim_C1.2 demoChannel 2 5 (by decide) (by decide) (by decide) (by decide)).1⟩

/-- C3: the pagination loop terminates: on a channel whose uploads
collection holds exactly `K` videos, with `max_results > K` and no filter,
the loop stops when the provider hands out no continuation cursor and the
call returns exactly the `K` video records. -/
theorem claim_C3 (c : StubChannel) (mr fuel : Nat) (hid : c.data.id ≠ "")
    (hmr : c.uploads.length < mr) (hfuel : c.uploads.length + 1 ≤ fuel) :
    (get_all_videos (honest c) (some c.data.id) none mr none fuel).1 =
        some (Except.ok (c.uploads.map videoDict)) ∧
      (c.uploads.map videoDict).length = c.uploads.length := by
  have hK : capN mr c.uploads.length = c.uploads.length :=
    capN_eq_L mr _ (fun _ => by omega)
  constructor
  · rw [get_all_videos_honest c hid]
    have h2 := fetchPages_honest_exact c mr fuel 0 [] none rfl rfl (by omega) (by omega)
    rw [hK] at h2
    simpa using h2
  · simp

theorem claim_C3_witness :
    (get_all_videos (honest demoChannel) (some "ch1") none 10 none 9).1 =
        some (Except.ok (demoChannel.uploads.map videoDict)) ∧
      (demoChannel.uploads.map videoDict).length = demoChannel.uploads.length :=
  claim_C3 demoChannel 10 9 (by decide) (by decide) (by decide)

theorem get_all_videos_reqs_split (p : Provider) (cid u : Option String) (mr : Nat)
    (pa : Option PyDateTime) (fuel : Nat) :
    ∀ q ∈ (get_all_videos p cid u mr pa fuel).2,
      (∃ i, q = Request.channelsById i) ∨ (∃ i, q = Request.channelsByUsername i) ∨
      ∃ pid, q ∈ (fetchPages p pid mr pa fuel [] none).2 := by
  intro q hq
  simp only [get_all_videos] at hq
  by_cases hnv : truthy cid = false ∧ truthy u = false
  · rw [if_pos hnv] at hq
    simp at hq
  · rw [if_neg hnv] at hq
    by_cases hbr : truthy u = true ∧ truthy cid = false
    · rw [if_pos hbr] at hq
      cases hc1 : (get_channel_info p none u).1 with
      | error e =>
        simp only [hc1] at hq
        exact (get_channel_info_reqs p none u q hq).imp id Or.inl
      | ok d =>
        simp only [hc1] at hq
        cases hle : d.lookup "error" with
        | some v =>
          simp only [hle] at hq
          exact (get_channel_info_reqs p none u q hq).imp id Or.inl
        | none =>
          simp only [hle] at hq
          cases hup : d.lookup "uploads_playlist" with
          | none =>
            simp only [hup] at hq
            exact (get_channel_info_reqs p none u q hq).imp id Or.inl
          | some val =>
            cases val with
            | str pid =>
              simp only [hup] at hq
              rcases List.mem_append.mp hq with h | h
              · exact (get_channel_info_reqs p none u q h).imp id Or.inl
              · exact Or.inr (Or.inr ⟨pid, h⟩)
            | nat n =>
              simp only [hup] at hq
              exact (get_channel_info_reqs p none u q hq).imp id Or.inl
            | bool b =>
              simp only [hup] at hq
              exact (get_channel_info_reqs p none u q hq).imp id Or.inl
            | arr l =>
              simp only [hup] at hq
              exact (get_channel_info_reqs p none u q hq).imp id Or.inl
            | dict l =>
              simp only [hup] at hq
              exact (get_channel_info_reqs p none u q hq).imp id Or.inl
    · rw [if_neg hbr] at hq
      cases hc1 : (get_channel_info p cid none).1 with
      | error e =>
        simp only [hc1] at hq
        exact (get_channel_info_reqs p cid none q hq).imp id Or.inl
      | ok d =>
        simp only [hc1] at hq
        cases hle : d.lookup "error" with
        | some v =>
          simp only [hle] at hq
          exact (get_channel_info_reqs p cid none q hq).imp id Or.inl
        | none =>
          simp only [hle] at hq
          cases hup : d.lookup "uploads_playlist" with
          | none =>
            simp only [hup] at hq
            exact (get_channel_info_reqs p cid none q hq).imp id Or.inl
          | some val =>
            cases val with
            | str pid =>
              simp only [hup] at hq
              rcases List.mem_append.mp hq with h | h
              · exact (get_channel_info_reqs p cid none q h).imp id Or.inl
              · exact Or.inr (Or.inr ⟨pid, h⟩)
            | nat n =>
              simp only [hup] at hq
              exact (get_channel_info_reqs p cid none q hq).imp id Or.inl
            | bool b =>
              simp only [hup] at hq
              exact (get_channel_info_reqs p cid none q hq).imp id Or.inl
            | arr l =>
              simp only [hup] at hq
              exact (get_channel_info_reqs p cid none q hq).imp id Or.inl
            | dict l =>
              simp only [hup] at hq
              exact (get_channel_info_reqs p cid none q hq).imp id Or.inl

/-- C8: with a falsy `max_results` (0 or None, both modelled by `0`), the
client-side cap check is skipped and every `playlistItems` page request
asks for exactly 50 items; the fetch is bounded only by the cursors of the provider: on the honest stub it returns the entire uploads collection,
stopping exactly when no continuation cursor is handed out. -/
theorem claim_C8 :
    (∀ p cid u pa fuel pid2 m t,
      Request.playlistItems pid2 m t ∈ (get_all_videos p cid u 0 pa fuel).2 →
      m = 50) ∧
    (∀ c fuel, c.data.id ≠ "" → c.uploads.length + 1 ≤ fuel →
      (get_all_videos (honest c) (some c.data.id) none 0 none fuel).1 =
        some (Except.ok (c.uploads.map videoDict))) := by
  constructor
  · intro p cid u pa fuel pid2 m t hq
    rcases get_all_videos_reqs_split p cid u 0 pa fuel _ hq with ⟨i, h⟩ | ⟨i, h⟩ | ⟨pid, h⟩
    · cases h
    · cases h
    · obtain ⟨t2, h2⟩ := fetchPages_mr0_reqs p pid pa fuel [] none _ h
      injection h2 with h3 h4 h5
  · intro c fuel hid hfuel
    rw [get_all_videos_honest c hid]
    have h2 := fetchPages_honest_exact c 0 fuel 0 [] none rfl rfl
      (by rw [capN_zero]; omega) (by rw [capN_zero]; omega)
    rw [capN_zero] at h2
    simpa using h2

theorem claim_C8_witness :
    (get_all_videos (honest demoChannel) (some "ch1") none 0 none 9).1 =
        some (Except.ok (demoChannel.uploads.map videoDict)) ∧
      (50 : Nat) = 50 :=
  ⟨claim_C8.2 demoChannel 9 (by decide) (by decide),
    claim_C8.1 (honest demoChannel) (some "ch1") none none 9 "UUpl" 50 none
      (by decide)⟩

theorem lookup_setFile_self (l : List (String × String)) (path c : String) :
    (setFile l path c).lookup path = some c := by
  induction l with
  | nil => simp [setFile, List.lookup]
  | cons hd tl ih =>
    obtain ⟨q, c0⟩ := hd
    rw [setFile]
    by_cases hq : q = path
    · subst hq
      simp [List.lookup]
    · rw [if_neg hq]
      have hb : (path == q) = false := beq_eq_false_iff_ne.mpr (fun he => hq he.symm)
      simp only [List.lookup, hb]
      exact ih

theorem lookup_setFile_other (l : List (String × String)) (path c q2 : String)
    (hne : q2 ≠ path) : (setFile l path c).lookup q2 = l.lookup q2 := by
  have hb2 : (q2 == path) = false := beq_eq_false_iff_ne.mpr hne
  induction l with
  | nil => simp [setFile, List.lookup, hb2]
  | cons hd tl ih =>
    obtain ⟨q, c0⟩ := hd
    rw [setFile]
    by_cases hq : q = path
    · subst hq
      simp only [List.lookup, hb2]
    · rw [if_neg hq]
      cases hqq : q2 == q with
      | true => simp only [List.lookup, hqq]
      | false =>
        simp only [List.lookup, hqq]
        exact ih

/-- C9: for every video id and language list, the transcript helper writes
exactly one text file named `<video_id>.txt` into the fixed relative
`./transcriptions` directory — every other file keeps its prior contents —
creating the directory when it does not exist (and adding nothing else),
and silently overwriting the file when it already exists.  File contents
are modelled at the text level (the helper opens the file in text mode). -/
theorem claim_C9 (fetch : String → List String → List Snippet) (fs : FS)
    (vid : String) (langs : List String) :
    (transcript fetch fs vid langs).files.lookup
        ("./transcriptions/" ++ vid ++ ".txt") =
      some (String.intercalate " " ((fetch vid langs).map Snippet.text)) ∧
    (∀ q, q ≠ "./transcriptions/" ++ vid ++ ".txt" →
      (transcript fetch fs vid langs).files.lookup q = fs.files.lookup q) ∧
    "./transcriptions" ∈ (transcript fetch fs vid langs).dirs ∧
    (∀ d2, d2 ∈ (transcript fetch fs vid langs).dirs ↔
      d2 ∈ fs.dirs ∨ d2 = "./transcriptions") := by
  simp only [transcript]
  by_cases hdir : "./transcriptions" ∈ fs.dirs
  · rw [if_pos hdir]
    refine ⟨lookup_setFile_self _ _ _,
      fun q hq => lookup_setFile_other _ _ _ _ hq, hdir, ?_⟩
    intro d2
    constructor
    · exact Or.inl
    · intro h
      rcases h with h | rfl
      · exact h
      · exact hdir
  · rw [if_neg hdir]
    refine ⟨lookup_setFile_self _ _ _,
      fun q hq => lookup_setFile_other _ _ _ _ hq, List.mem_cons_self _ _, ?_⟩
    intro d2
    constructor
    · intro h
      rcases List.mem_cons.mp h with rfl | h
      · exact Or.inr rfl
      · exact Or.inl h
    · intro h
      rcases h with h | rfl
      · exact List.mem_cons_of_mem _ h
      · exact List.mem_cons_self _ _

/-- A concrete filesystem snapshot for the C9 witness: the directory does
not exist yet, and an unrelated file is present. -/
def demoFS : FS := FS.mk ["."] [("./other.txt", "keep")]

theorem claim_C9_witness :
    (transcript demoFetch demoFS "v1" ["en"]).files.lookup
        ("./transcriptions/" ++ "v1" ++ ".txt") =
      some (String.intercalate " " ((demoFetch "v1" ["en"]).map Snippet.text)) ∧
    (transcript demoFetch demoFS "v1" ["en"]).files.lookup "./other.txt" =
      demoFS.files.lookup "./other.txt" ∧
    "./transcriptions" ∈ (transcript demoFetch demoFS "v1" ["en"]).dirs :=
  ⟨(claim_C9 demoFetch demoFS "v1" ["en"]).1,
    (claim_C9 demoFetch demoFS "v1" ["en"]).2.1 "./other.txt" (by decide),
    (claim_C9 demoFetch demoFS "v1" ["en"]).2.2.1⟩

end Franchino
